import Mathlib

/-!
Shallow embedding of the node-opcua server engine
(`packages/node-opcua-server/source/server_engine.ts`, provided as
`src/unnamed/part_000`), restricted to the session / subscription management
operations: `getOldestInactiveSession`, `createSession`, `closeSession`,
`findSubscription`, `findOrphanSubscription`, `_getSubscription`,
`setSubscriptionDurable`, `getMonitoredItemsId`, `resendData`,
`transferSubscription`, `getSession`, `_get_next_subscriptionId` and
`_createSubscriptionOnSession`, together with a model of the RelativePath
syntax (`makeRelativePath`, whose implementation is outside the provided
sources and is therefore modelled from the specification grammar).

Modelling conventions:
- JS objects keyed by strings (the `_sessions` map) become insertion-ordered
  lists; `Object.values` is the list itself.
- Machine numbers that the engine only adds, subtracts and compares are `Int`
  (diagnostic counters) or `Nat` (ids, dates in epoch milliseconds, durations
  in milliseconds); all the values involved stay far below 2^53, where JS
  number arithmetic on integers is exact.
- Callback results become plain return values; fallible operations return
  `Option` / `Except`.
-/

namespace NodeOpcua

/-- The OPC UA status codes used by the modelled operations. -/
inductive StatusCode where
  | good
  | badInvalidState
  | badUserAccessDenied
  | badSubscriptionIdInvalid
  | badNothingToDo
  | badInternalError
  | badTooManySessions
  deriving DecidableEq, Repr

/-- Session status, exactly the string values used by the source
(`"new" | "active" | "screwed" | "closed" | "disposed"`). -/
inductive SessionStatus where
  | new
  | active
  | screwed
  | closed
  | disposed
  deriving DecidableEq, Repr

/-- The subscription state the engine operations inspect: identity, owning
session (`$session`, by session key), monitored-item count, publishing
parameters, the retransmission queue (as the list of retained sequence
numbers) and the transfer diagnostic counters. -/
structure Subscription where
  id : Nat
  monitoredItemCount : Nat
  lifeTimeCount : Nat
  /-- publishing interval in milliseconds -/
  publishingInterval : Nat
  maxKeepAliveCount : Nat
  maxNotificationsPerPublish : Nat
  priority : Nat
  /-- sequence numbers of the NotificationMessages retained for republish -/
  retransmissionQueue : List Nat
  /-- the key of the owning session (`subscription.$session`), `none` when
  the subscription is orphaned -/
  sessionKey : Option Nat
  transferRequestCount : Nat
  transferredToAltClientCount : Nat
  transferredToSameClientCount : Nat
  deriving DecidableEq, Repr

/-- The per-session state the engine operations inspect.  The
authentication token (an opaque 16-byte NodeId in the source) is abstracted
to the `key` that indexes the session in the engine's session map; the user
identity (token type plus key material) is abstracted to a `Nat`.  The
session's publish engine is the list of subscriptions it owns. -/
structure ServerSession where
  key : Nat
  /-- creation date in epoch milliseconds (`creationDate.getTime()`) -/
  creationDate : Nat
  status : SessionStatus
  /-- revised session timeout in milliseconds -/
  sessionTimeout : Nat
  userIdentity : Nat
  publishEngine : List Subscription
  deriving DecidableEq, Repr

/-- The engine state the modelled operations read and update: the
insertion-ordered session map, the orphan publish engine (created lazily:
`none` until the first transfer to it) and the diagnostics counters touched
by `createSession` / `closeSession`. -/
structure EngineState where
  sessions : List ServerSession
  orphanPublishEngine : Option (List Subscription)
  cumulatedSessionCount : Int
  currentSessionCount : Int
  deriving DecidableEq, Repr

/-- Source function `ServerSidePublishEngine.getSubscriptionById`: look a subscription up by
id in a publish engine's subscription list. -/
def getSubscriptionById (subs : List Subscription) (subscriptionId : Nat) :
    Option Subscription :=
  subs.find? (fun sub => sub.id == subscriptionId)

/-- Source function `ServerEngine.findOrphanSubscription` (src/unnamed/part_000:3145-3150):
`null` when the orphan publish engine has not been created yet. -/
def findOrphanSubscription (e : EngineState) (subscriptionId : Nat) :
    Option Subscription :=
  match e.orphanPublishEngine with
  | none => none
  | some subs => getSubscriptionById subs subscriptionId

/-- Source function `ServerEngine.findSubscription` (src/unnamed/part_000:3127-3143): scan
every session's publish engine, keeping only the first subscription found,
then fall back to the orphan publish engine. -/
def findSubscription (e : EngineState) (subscriptionId : Nat) :
    Option Subscription :=
  match e.sessions.filterMap
      (fun s => getSubscriptionById s.publishEngine subscriptionId) with
  | sub :: _ => some sub
  | [] => findOrphanSubscription e subscriptionId

/-- Result of `_getSubscription`: either the subscription, or the status
code to return to the caller. -/
inductive SubscriptionLookup where
  | found (subscription : Subscription)
  | denied (statusCode : StatusCode)
  deriving DecidableEq, Repr

/-- Source function `_getSubscription` (src/unnamed/part_000:1734-1756).  `context.session`
is the caller's session (`none` models a context without a session, which
yields `BadInternalError`).  `session.getSubscription` resolves on the
session's own publish engine; a subscription that exists elsewhere on the
server yields `BadUserAccessDenied`, an unknown one
`BadSubscriptionIdInvalid`. -/
def _getSubscription (e : EngineState) (session : Option ServerSession)
    (subscriptionId : Nat) : SubscriptionLookup :=
  match session with
  | none => .denied .badInternalError
  | some session =>
    match getSubscriptionById session.publishEngine subscriptionId with
    | some subscription => .found subscription
    | none =>
      if (findSubscription e subscriptionId).isSome then
        .denied .badUserAccessDenied
      else
        .denied .badSubscriptionIdInvalid

/-- The `highestLifetimeInHours` constant of `setSubscriptionDurable`
(src/unnamed/part_000:1691): `24 * 100`. -/
def highestLifetimeInHours : Nat := 24 * 100

/-- Modelled from the spec: `Subscription.modify` (in
`server_subscription.ts`, outside the provided sources).
`setSubscriptionDurable` calls it with every parameter unchanged except
`requestedLifetimeCount`; per the spec, `lifetimeCount ≥ 3 × maxKeepAliveCount`
is enforced at modify time. -/
def Subscription.modifyLifetime (sub : Subscription)
    (requestedLifetimeCount : Nat) : Subscription :=
  { sub with
    lifeTimeCount := max requestedLifetimeCount (3 * sub.maxKeepAliveCount) }

/-- The observable outcome of `setSubscriptionDurable`: the status code and,
on success, the single output argument `revisedLifetimeInHours`. -/
structure SetSubscriptionDurableResult where
  statusCode : StatusCode
  revisedLifetimeInHours : Option Nat
  deriving DecidableEq, Repr

/-- Source function `setSubscriptionDurable` (src/unnamed/part_000:1645-1715).  Returns the
call result together with the subscription as it stands after the call
(`none` when `_getSubscription` failed).  The floating-point comparison
`currentLifeTimeInHours < revisedLifetimeInHours`
(`lifeTimeCount * publishingInterval / 3600000 < revised`) and the
`Math.ceil` of `revised * 3600000 / publishingInterval` are written in
exact integer arithmetic over the millisecond quantities (the publishing
interval is a positive integer count of milliseconds). -/
def setSubscriptionDurable (e : EngineState) (session : Option ServerSession)
    (subscriptionId lifetimeInHours : Nat) :
    SetSubscriptionDurableResult × Option Subscription :=
  match _getSubscription e session subscriptionId with
  | .denied statusCode => (⟨statusCode, none⟩, none)
  | .found subscription =>
    if 0 < subscription.monitoredItemCount then
      (⟨.badInvalidState, none⟩, some subscription)
    else
      let revisedLifetimeInHours :=
        if lifetimeInHours = 0 then highestLifetimeInHours
        else max 1 (min lifetimeInHours highestLifetimeInHours)
      let subscription1 :=
        if subscription.lifeTimeCount * subscription.publishingInterval <
            revisedLifetimeInHours * 3600000 then
          let requestedLifetimeCount :=
            (revisedLifetimeInHours * 3600000 +
              subscription.publishingInterval - 1) /
              subscription.publishingInterval
          subscription.modifyLifetime requestedLifetimeCount
        else subscription
      (⟨.good, some revisedLifetimeInHours⟩, some subscription1)

/-- The status code returned by the `GetMonitoredItems` method binding
(src/unnamed/part_000:1778-1801): the `_getSubscription` failure code, or
the status of `subscription.getMonitoredItems()` — `Good` on a live
subscription (modelled from the spec, the `Subscription` class being
outside the provided sources). -/
def getMonitoredItemsStatus (e : EngineState) (session : Option ServerSession)
    (subscriptionId : Nat) : StatusCode :=
  match _getSubscription e session subscriptionId with
  | .denied statusCode => statusCode
  | .found _ => .good

/-- The status code returned by the `ResendData` method binding
(src/unnamed/part_000:1757-1775): the `_getSubscription` failure code, or
`Good` once `resendInitialValues` completes. -/
def resendDataStatus (e : EngineState) (session : Option ServerSession)
    (subscriptionId : Nat) : StatusCode :=
  match _getSubscription e session subscriptionId with
  | .denied statusCode => statusCode
  | .found _ => .good

/-- The status code returned by the `SetSubscriptionDurable` method binding. -/
def setSubscriptionDurableStatus (e : EngineState)
    (session : Option ServerSession) (subscriptionId : Nat)
    (lifetimeInHours : Nat) : StatusCode :=
  (setSubscriptionDurable e session subscriptionId lifetimeInHours).1.statusCode

/-- The filter predicate of `getOldestInactiveSession`
(src/unnamed/part_000:2976-2979): status `"screwed"`, `"disposed"` or
`"closed"`. -/
def isInactiveStatus (s : ServerSession) : Bool :=
  s.status == .screwed || s.status == .disposed || s.status == .closed

/-- The selection loop of `getOldestInactiveSession`
(src/unnamed/part_000:2985-2991), translated verbatim: starting from the
first candidate, the running session is replaced by `c` whenever
`session.creationDate.getTime() < c.creationDate.getTime()`. -/
def selectSessionLoop (session : ServerSession) :
    List ServerSession → ServerSession
  | [] => session
  | c :: rest =>
    selectSessionLoop
      (if session.creationDate < c.creationDate then c else session) rest

/-- Source function `ServerEngine.getOldestInactiveSession` (src/unnamed/part_000:2974-2993):
filter the screwed/disposed/closed sessions, falling back to the `"new"`
ones, and run the selection loop over the candidates. -/
def getOldestInactiveSession (e : EngineState) : Option ServerSession :=
  let tmp := e.sessions.filter isInactiveStatus
  let tmp :=
    if tmp.length = 0 then e.sessions.filter (fun s => s.status == .new)
    else tmp
  match tmp with
  | [] => none
  | s :: rest => some (selectSessionLoop s rest)

/-- Source function `ServerEngine.createSession` (src/unnamed/part_000:2998-3069), restricted
to its state effect: increment `cumulatedSessionCount` and
`currentSessionCount`, then register the new session in `_sessions`
(`new ServerSession(...)` lives outside the provided sources, so the fresh
session object is a parameter). -/
def createSession (e : EngineState) (fresh : ServerSession) : EngineState :=
  { e with
    cumulatedSessionCount := e.cumulatedSessionCount + 1
    currentSessionCount := e.currentSessionCount + 1
    sessions := e.sessions ++ [fresh] }

/-- Modelled from the spec: `ServerSession.close` (in `server_session.ts`,
outside the provided sources) deletes the session's remaining subscriptions
when `deleteSubscriptions` is true and sets the status to `"closed"`
(`closeSession` asserts `session.status === "closed"` right after the call,
src/unnamed/part_000:3114). -/
def ServerSession.close (s : ServerSession) (deleteSubscriptions : Bool) :
    ServerSession :=
  { s with
    status := .closed
    publishEngine := if deleteSubscriptions then [] else s.publishEngine }

/-- Modelled from the spec: `ServerSession.dispose` (outside the provided
sources); per the spec's session lifecycle, "status → closed → later
disposed". -/
def ServerSession.dispose (s : ServerSession) : ServerSession :=
  { s with status := .disposed }

/-- Detach a subscription from its session (used when it moves to the
orphan publish engine). -/
def Subscription.detach (sub : Subscription) : Subscription :=
  { sub with sessionKey := none }

/-- Source function `ServerEngine.closeSession` (src/unnamed/part_000:3087-3125).  `none`
models the `throw` on an unknown authentication token.  When
`deleteSubscriptions` is false, the session's live subscriptions are moved
to the orphan publish engine, which is created on first use
(`ServerSidePublishEngine.transferSubscriptionsToOrphan` is outside the
provided sources and is modelled from the spec: every subscription of the
closing session's publish engine is transferred, none deleted).  The call
then closes the session, decrements `currentSessionCount`, removes the
session from the map and disposes it; the disposed session object is
returned alongside the new state. -/
def closeSession (e : EngineState) (authenticationToken : Nat)
    (deleteSubscriptions : Bool) : Option (EngineState × ServerSession) :=
  match e.sessions.find? (fun s => s.key == authenticationToken) with
  | none => none
  | some session =>
    let e1 :=
      if !deleteSubscriptions then
        { e with
          orphanPublishEngine := some ((e.orphanPublishEngine.getD []) ++
            session.publishEngine.map Subscription.detach) }
      else e
    let session1 :=
      if !deleteSubscriptions then { session with publishEngine := [] }
      else session
    let session2 := session1.close deleteSubscriptions
    let e2 := { e1 with
      currentSessionCount := e1.currentSessionCount - 1
      sessions := e1.sessions.filter (fun s => s.key != authenticationToken) }
    some (e2, session2.dispose)

/-- Modelled from the spec: `sessionsCompatibleForTransfer` (in
`sessions_compatible_for_transfer.ts`, outside the provided sources) —
"Source and target must share the same user identity (same token-type and
key material)", abstracted here as equality of the sessions' user
identities. -/
def sessionsCompatibleForTransfer (src tgt : ServerSession) : Bool :=
  src.userIdentity == tgt.userIdentity

/-- Remove the subscription with the given id from a publish engine. -/
def removeSubscriptionById (subs : List Subscription) (subscriptionId : Nat) :
    List Subscription :=
  subs.filter (fun sub => sub.id != subscriptionId)

/-- Replace the subscription with the given id, wherever it lives, by the
given (updated) subscription object — the mutation of a shared JS object. -/
def updateSubscription (e : EngineState) (sub : Subscription) : EngineState :=
  { e with
    sessions := e.sessions.map (fun s =>
      { s with publishEngine := s.publishEngine.map (fun x =>
          if x.id == sub.id then sub else x) })
    orphanPublishEngine := e.orphanPublishEngine.map (fun subs =>
      subs.map (fun x => if x.id == sub.id then sub else x)) }

/-- Detach the subscription with the given id from every publish engine
(session-owned or orphan). -/
def detachSubscription (e : EngineState) (subscriptionId : Nat) :
    EngineState :=
  { e with
    sessions := e.sessions.map (fun s =>
      { s with
        publishEngine := removeSubscriptionById s.publishEngine
          subscriptionId })
    orphanPublishEngine := e.orphanPublishEngine.map (fun subs =>
      removeSubscriptionById subs subscriptionId) }

/-- Attach a subscription to the publish engine of the session with the
given key. -/
def attachSubscription (e : EngineState) (sessionKey : Nat)
    (sub : Subscription) : EngineState :=
  { e with
    sessions := e.sessions.map (fun s =>
      if s.key == sessionKey then
        { s with publishEngine := s.publishEngine ++ [sub] }
      else s) }

/-- The result of `TransferSubscriptions` for one subscription. -/
structure TransferResult where
  statusCode : StatusCode
  availableSequenceNumbers : List Nat
  deriving DecidableEq, Repr

set_option linter.unusedVariables false in
/-- Source function `ServerEngine.transferSubscription` (src/unnamed/part_000:3171-3238),
`session` being the target session.  Checks, in source order: a positive
subscription id; that the subscription exists somewhere on the server;
`sessionsCompatibleForTransfer(subscription.$session, session)` (the owner
is resolved through the session map; a missing owner shares no identity
with the target); then, after bumping `transferRequestCount`, the two
"already in this session" tests (`session.publishEngine ===
subscription.publishEngine` and `session === subscription.$session`), which
in this model both amount to `subscription.sessionKey = session.key`.  On
the remaining path the subscription moves to the target session
(`ServerSidePublishEngine.transferSubscription`, outside the provided
sources: detach from the source publish engine, attach to the target) and
the result carries `subscription.getAvailableSequenceNumbers()` — per the
spec, the sequence numbers of the retransmission queue. -/
def transferSubscription (e : EngineState) (session : ServerSession)
    (subscriptionId : Nat) (sendInitialValues : Bool) :
    TransferResult × EngineState :=
  if subscriptionId = 0 then (⟨.badSubscriptionIdInvalid, []⟩, e)
  else
    match findSubscription e subscriptionId with
    | none => (⟨.badSubscriptionIdInvalid, []⟩, e)
    | some subscription =>
      let owner := subscription.sessionKey.bind
        (fun k => e.sessions.find? (fun s => s.key == k))
      let compatible := match owner with
        | none => false
        | some owner => sessionsCompatibleForTransfer owner session
      if !compatible then (⟨.badUserAccessDenied, []⟩, e)
      else
        let subscription1 := { subscription with
          transferRequestCount := subscription.transferRequestCount + 1 }
        if subscription.sessionKey == some session.key then
          (⟨.badNothingToDo, []⟩, updateSubscription e subscription1)
        else
          let subscription2 := { subscription1 with
            transferredToAltClientCount :=
              subscription1.transferredToAltClientCount + 1
            transferredToSameClientCount :=
              subscription1.transferredToSameClientCount + 1
            sessionKey := some session.key }
          let e1 := detachSubscription e subscriptionId
          let e2 := attachSubscription e1 session.key subscription2
          (⟨.good, subscription2.retransmissionQueue⟩, e2)

/-- The four NodeId identifier kinds (`NodeIdType`: NUMERIC = 0x01,
STRING = 0x02, GUID = 0x03, BYTESTRING = 0x04 — every value is truthy in
JS, so `authenticationToken.identifierType && ...` only guards a missing
field, which a constructed NodeId never has). -/
inductive NodeIdType where
  | numeric
  | string
  | guid
  | bytestring
  deriving DecidableEq, Repr

/-- A NodeId as `getSession` inspects it: the identifier kind, the
namespace and the identifier value (its rendering inside `toString`). -/
structure NodeId where
  identifierType : NodeIdType
  namespaceIndex : Nat
  value : String
  deriving DecidableEq, Repr

/-- Source function `NodeId.toString`, the key under which sessions are indexed:
`ns=<namespace>;<tag>=<value>` with the tag determined by the identifier
kind. -/
def NodeId.toKeyString (n : NodeId) : String :=
  let tag := match n.identifierType with
    | .numeric => "i="
    | .string => "s="
    | .guid => "g="
    | .bytestring => "b="
  "ns=" ++ toString n.namespaceIndex ++ ";" ++ tag ++ n.value

/-- A string-keyed JS object used as a map; lookup returns the first
binding. -/
def lookupKey (table : List (String × Nat)) (key : String) : Option Nat :=
  (table.find? (fun p => p.1 == key)).map (fun p => p.2)

/-- The two session tables of the engine, `_sessions` and `_closedSessions`,
keyed by `authenticationToken.toString()`; the sessions themselves are
abstracted to opaque handles. -/
structure SessionTables where
  activeSessions : List (String × Nat)
  closedSessions : List (String × Nat)
  deriving DecidableEq, Repr

/-- Source function `ServerEngine.getSession` (src/unnamed/part_000:3247-3260): reject a
token whose `identifierType` is not BYTESTRING, then look the key up in
`_sessions` and, unless `activeOnly`, fall back to `_closedSessions`. -/
def getSession (t : SessionTables) (authenticationToken : NodeId)
    (activeOnly : Bool) : Option Nat :=
  if authenticationToken.identifierType ≠ NodeIdType.bytestring then none
  else
    let key := authenticationToken.toKeyString
    match lookupKey t.activeSessions key with
    | some session => some session
    | none =>
      if !activeOnly then lookupKey t.closedSessions key else none

/-- The module-scoped subscription-id counter (`next_subscriptionId`,
src/unnamed/part_000:1826), seeded at startup with
`Math.ceil(Math.random() * 1000000)` — the seed is arbitrary here. -/
structure SubscriptionIdGenerator where
  next_subscriptionId : Nat
  deriving DecidableEq, Repr

/-- Source function `_get_next_subscriptionId` (src/unnamed/part_000:1830-1833):
`next_subscriptionId++` — return the current value, then increment. -/
def _get_next_subscriptionId (g : SubscriptionIdGenerator) :
    Nat × SubscriptionIdGenerator :=
  (g.next_subscriptionId, ⟨g.next_subscriptionId + 1⟩)

/-- The request fields `_createSubscriptionOnSession` reads. -/
structure CreateSubscriptionRequest where
  requestedPublishingInterval : Nat
  requestedLifetimeCount : Nat
  requestedMaxKeepAliveCount : Nat
  maxNotificationsPerPublish : Nat
  publishingEnabled : Bool
  priority : Nat
  deriving DecidableEq, Repr

/-- Source function `ServerEngine._createSubscriptionOnSession`
(src/unnamed/part_000:3384-3425): build a subscription whose id comes from
`_get_next_subscriptionId()`, bind it to the session's publish engine and
register it there (`session.publishEngine.add_subscription`). -/
def _createSubscriptionOnSession (g : SubscriptionIdGenerator)
    (e : EngineState) (sessionKey : Nat) (request : CreateSubscriptionRequest) :
    Subscription × SubscriptionIdGenerator × EngineState :=
  let (id, g1) := _get_next_subscriptionId g
  let subscription : Subscription :=
    { id := id
      monitoredItemCount := 0
      lifeTimeCount := request.requestedLifetimeCount
      publishingInterval := request.requestedPublishingInterval
      maxKeepAliveCount := request.requestedMaxKeepAliveCount
      maxNotificationsPerPublish := request.maxNotificationsPerPublish
      priority := request.priority
      retransmissionQueue := []
      sessionKey := some sessionKey
      transferRequestCount := 0
      transferredToAltClientCount := 0
      transferredToSameClientCount := 0 }
  (subscription, g1, attachSubscription e sessionKey subscription)

/-- A run of subscription creations: thread the id generator and the engine
state through `_createSubscriptionOnSession` for each (session, request)
pair, collecting the created subscriptions. -/
def createSubscriptionRun (g : SubscriptionIdGenerator) (e : EngineState) :
    List (Nat × CreateSubscriptionRequest) → List Subscription
  | [] => []
  | (sessionKey, request) :: rest =>
    let (subscription, g1, e1) :=
      _createSubscriptionOnSession g e sessionKey request
    subscription :: createSubscriptionRun g1 e1 rest

/-- The engine-side defaulting of the requested session timeout
(src/unnamed/part_000:3007): `options.sessionTimeout || 1000` — `none`
models an absent field, and `0` is falsy. -/
def engineDefaultSessionTimeout (requested : Option Nat) : Nat :=
  match requested with
  | none => 1000
  | some t => if t = 0 then 1000 else t

/-- Modelled from the spec: the session-timeout revision of the server
front-end (outside the provided sources) — "Revise `sessionTimeout` to
`clamp(requested, 10 s, serverMaxSessionTimeout)`", in milliseconds. -/
def reviseSessionTimeout (requested maxSessionTimeout : Nat) : Nat :=
  max 10000 (min requested maxSessionTimeout)

/-- The timeout actually assigned to a new session: the front-end revision
of the requested value (an absent request is revised from 0), passed
through the engine's own `|| 1000` defaulting. -/
def assignedSessionTimeout (requested : Option Nat)
    (maxSessionTimeout : Nat) : Nat :=
  engineDefaultSessionTimeout
    (some (reviseSessionTimeout (requested.getD 0) maxSessionTimeout))

/-- Modelled from the spec: the `maxSessions` admission control of the
server front-end (outside the provided sources; src holds only
`ServerEngine.createSession` and `getOldestInactiveSession`) — "Enforce
`maxSessions`; on overflow evict the oldest inactive session (state in
{screwed,disposed,closed}, else the oldest `new`) if one exists, otherwise
fail with `Bad_TooManySessions`."  The eviction victim is obtained from the
source function `getOldestInactiveSession` and closed with
`deleteSubscriptions = true`. -/
def createSessionChecked (e : EngineState) (maxSessions : Nat)
    (fresh : ServerSession) : Except StatusCode EngineState :=
  if maxSessions ≤ e.sessions.length then
    match getOldestInactiveSession e with
    | none => .error .badTooManySessions
    | some victim =>
      match closeSession e victim.key true with
      | none => .error .badInternalError
      | some (e1, _) => .ok (createSession e1 fresh)
  else .ok (createSession e fresh)

/-- A browse name: namespace index and case-sensitive name. -/
structure QualifiedName where
  namespaceIndex : Nat
  name : String
  deriving DecidableEq, Repr

/-- The reference-type part of a RelativePath element: `/` stands for
forward HierarchicalReferences, `.` for forward Aggregates, and `<...>`
names an explicit reference type. -/
inductive ReferenceTypeSpec where
  | hierarchicalReferences
  | aggregates
  | explicitRef (name : QualifiedName)
  deriving DecidableEq, Repr

/-- One parsed RelativePath element. -/
structure RelativePathElement where
  referenceTypeId : ReferenceTypeSpec
  isInverse : Bool
  includeSubtypes : Bool
  targetName : QualifiedName
  deriving DecidableEq, Repr

/-- The reserved characters of the RelativePath grammar:
`/ . < > : # ! &`. -/
def reservedChars : List Char := ['/', '.', '<', '>', ':', '#', '!', '&']

/-- Whether a character is reserved. -/
def isReservedChar (c : Char) : Bool := reservedChars.contains c

/-- Modelled from the spec: the character scanner of the RelativePath
grammar (`makeRelativePath` lives in
`node-opcua-service-translate-browse-path`, outside the provided sources;
only its test suite is in src).  `Chars := any character except reserved,
or '&' reserved (escape)`: consume characters up to the next unescaped
reserved character, an `&` taking the following character literally; a
trailing lone `&` is a syntax error. -/
def takeNameChars : List Char → Option (String × List Char)
  | [] => some ("", [])
  | ['&'] => none
  | '&' :: c :: rest =>
    (takeNameChars rest).map (fun p => (String.singleton c ++ p.1, p.2))
  | c :: rest =>
    if isReservedChar c then some ("", c :: rest)
    else (takeNameChars rest).map (fun p => (String.singleton c ++ p.1, p.2))

/-- Split a leading run of decimal digits. -/
def takeDigits : List Char → List Char × List Char
  | [] => ([], [])
  | c :: rest =>
    if c.isDigit then
      let (ds, r) := takeDigits rest
      (c :: ds, r)
    else ([], c :: rest)

/-- Decimal value of a digit run. -/
def digitsToNat (ds : List Char) : Nat :=
  ds.foldl (fun acc c => acc * 10 + (c.toNat - 48)) 0

/-- Modelled from the spec: `QName := (digits ':')? Chars` — an optional
namespace-index prefix (namespace 0 when absent) followed by the escaped
character run. -/
def parseQName (cs : List Char) : Option (QualifiedName × List Char) :=
  match takeDigits cs with
  | (d :: ds, ':' :: rest) =>
    (takeNameChars rest).map (fun p => (⟨digitsToNat (d :: ds), p.1⟩, p.2))
  | _ =>
    (takeNameChars cs).map (fun p => (⟨0, p.1⟩, p.2))

/-- Modelled from the spec: `RefSpec := '/' | '.' | '<' '#'? '!'? QName '>'`
— `#` clears `includeSubtypes`, `!` sets `isInverse`. -/
def parseRefSpec (cs : List Char) :
    Option ((ReferenceTypeSpec × Bool × Bool) × List Char) :=
  match cs with
  | '/' :: rest => some ((.hierarchicalReferences, false, true), rest)
  | '.' :: rest => some ((.aggregates, false, true), rest)
  | '<' :: rest =>
    let (includeSubtypes, rest1) := match rest with
      | '#' :: r => (false, r)
      | _ => (true, rest)
    let (isInverse, rest2) := match rest1 with
      | '!' :: r => (true, r)
      | _ => (false, rest1)
    match parseQName rest2 with
    | some (qn, '>' :: rest3) => some ((.explicitRef qn, isInverse, includeSubtypes), rest3)
    | _ => none
  | _ => none

/-- Modelled from the spec: `Path := Element+` with
`Element := RefSpec TargetName?` — repeatedly parse a reference
specification followed by an optional target name.  Each element starts by
consuming at least one character, so the input length bounds the number of
elements (the fuel). -/
def parseElementsAux : Nat → List Char → Option (List RelativePathElement)
  | 0, _ => none
  | _ + 1, [] => some []
  | fuel + 1, cs =>
    match parseRefSpec cs with
    | none => none
    | some ((referenceTypeId, isInverse, includeSubtypes), rest) =>
      match parseQName rest with
      | none => none
      | some (targetName, rest2) =>
        (parseElementsAux fuel rest2).map (fun elements =>
          ⟨referenceTypeId, isInverse, includeSubtypes, targetName⟩ :: elements)

/-- Modelled from the spec: `makeRelativePath` — parse a RelativePath
string into its elements. -/
def makeRelativePath (s : String) : Option (List RelativePathElement) :=
  parseElementsAux (s.length + 1) s.data

/-! Theorems -/

/-- Example state for the C4 counter-evidence: two inactive sessions,
created at t = 100 and t = 200. -/
def c4SessionA : ServerSession :=
  { key := 1, creationDate := 100, status := .closed, sessionTimeout := 10000
    userIdentity := 0, publishEngine := [] }

/-- The younger of the two inactive sessions. -/
def c4SessionB : ServerSession :=
  { key := 2, creationDate := 200, status := .screwed, sessionTimeout := 10000
    userIdentity := 0, publishEngine := [] }

/-- Engine state holding the two inactive sessions. -/
def c4State : EngineState :=
  { sessions := [c4SessionA, c4SessionB], orphanPublishEngine := none
    cumulatedSessionCount := 2, currentSessionCount := 2 }

/-- C4: `getOldestInactiveSession` is claimed to return the inactive session
with the smallest creationDate.  On two inactive sessions created at t = 100
and t = 200 it returns the one created at t = 200 — the newest: the
comparison `session.creationDate.getTime() < c.creationDate.getTime()`
keeps the larger date, contradicting the function's own name and the spec. -/
theorem getOldestInactiveSession_picks_newest :
    getOldestInactiveSession c4State = some c4SessionB
    ∧ c4SessionA.creationDate < c4SessionB.creationDate := by decide

/-- Example state for the C3 counter-evidence: a server at full capacity
(`maxSessions = 2`) holding two inactive sessions created at t = 10 and
t = 20. -/
def c3SessionA : ServerSession :=
  { key := 1, creationDate := 10, status := .closed, sessionTimeout := 10000
    userIdentity := 0, publishEngine := [] }

/-- The younger inactive session of the C3 state. -/
def c3SessionB : ServerSession :=
  { key := 2, creationDate := 20, status := .closed, sessionTimeout := 10000
    userIdentity := 0, publishEngine := [] }

/-- Engine state at capacity for the C3 counter-evidence. -/
def c3State : EngineState :=
  { sessions := [c3SessionA, c3SessionB], orphanPublishEngine := none
    cumulatedSessionCount := 2, currentSessionCount := 2 }

/-- The incoming session of the C3 counter-evidence. -/
def c3Fresh : ServerSession :=
  { key := 3, creationDate := 30, status := .new, sessionTimeout := 10000
    userIdentity := 0, publishEngine := [] }

/-- C3: at `maxSessions = 2` with the two inactive sessions created at
t = 10 and t = 20, admission control evicts the session created at t = 20 —
the newest inactive session, not the oldest as claimed — because the victim
comes from `getOldestInactiveSession`: after the call the surviving
sessions are the t = 10 one and the fresh one, both session counters having
moved as claimed. -/
theorem createSessionChecked_evicts_newest :
    createSessionChecked c3State 2 c3Fresh
      = .ok { sessions := [c3SessionA, c3Fresh], orphanPublishEngine := none
              cumulatedSessionCount := 3, currentSessionCount := 2 }
    ∧ c3SessionA.creationDate < c3SessionB.creationDate :=
  ⟨rfl, by decide⟩

/-- C10: `getSession` returns `null` for every authentication token whose
NodeId identifierType is not BYTESTRING, whatever the token value, the
session tables and the `activeOnly` flag: the type check precedes any
lookup. -/
theorem getSession_wrong_token_type (t : SessionTables)
    (authenticationToken : NodeId) (activeOnly : Bool)
    (h : authenticationToken.identifierType ≠ NodeIdType.bytestring) :
    getSession t authenticationToken activeOnly = none := by
  unfold getSession
  rw [if_pos h]

/-- A numeric token whose string form collides with the registered key. -/
def c10Token : NodeId :=
  { identifierType := .numeric, namespaceIndex := 0, value := "7" }

/-- Session tables registering the colliding key in both maps. -/
def c10Tables : SessionTables :=
  { activeSessions := [("ns=0;i=7", 1)], closedSessions := [("ns=0;i=7", 2)] }

/-- Witness for C10: even when the token's string form is registered in
both session tables, a NUMERIC token finds nothing. -/
theorem getSession_wrong_token_type_witness :
    c10Token.identifierType ≠ NodeIdType.bytestring
    ∧ getSession c10Tables c10Token false = none :=
  ⟨by decide, getSession_wrong_token_type c10Tables c10Token false (by decide)⟩

/-- C1: on a subscription owned by the calling session,
`setSubscriptionDurable` returns `Bad_InvalidState` and leaves the
subscription unchanged when it has at least one monitored item; otherwise
it returns `Good` with `revisedLifetimeInHours = 2400` for a request of 0
and `max 1 (min lifetimeInHours 2400)` otherwise, so any returned revised
value lies in [1, 2400]. -/
theorem setSubscriptionDurable_revision (e : EngineState)
    (session : ServerSession) (sub : Subscription)
    (subscriptionId lifetimeInHours : Nat)
    (howned : getSubscriptionById session.publishEngine subscriptionId
      = some sub) :
    (0 < sub.monitoredItemCount →
      setSubscriptionDurable e (some session) subscriptionId lifetimeInHours
        = (⟨.badInvalidState, none⟩, some sub))
    ∧ (sub.monitoredItemCount = 0 →
      (setSubscriptionDurable e (some session) subscriptionId
          lifetimeInHours).1
        = ⟨.good, some (if lifetimeInHours = 0 then 2400
            else max 1 (min lifetimeInHours 2400))⟩)
    ∧ (∀ r, (setSubscriptionDurable e (some session) subscriptionId
          lifetimeInHours).1.revisedLifetimeInHours = some r →
        1 ≤ r ∧ r ≤ 2400) := by
  have hlookup : _getSubscription e (some session) subscriptionId
      = .found sub := by
    simp only [_getSubscription, howned]
  refine ⟨fun hpos => ?_, fun hzero => ?_, fun r hr => ?_⟩
  · unfold setSubscriptionDurable
    rw [hlookup]
    simp [hpos]
  · unfold setSubscriptionDurable
    rw [hlookup]
    simp only [hzero, lt_irrefl, if_neg (lt_irrefl 0)]
    rfl
  · unfold setSubscriptionDurable at hr
    rw [hlookup] at hr
    by_cases hpos : 0 < sub.monitoredItemCount
    · simp [hpos] at hr
    · simp only [hpos, if_false] at hr
      simp only [SetSubscriptionDurableResult.revisedLifetimeInHours,
        Option.some.injEq] at hr
      subst hr
      unfold highestLifetimeInHours
      by_cases h0 : lifetimeInHours = 0 <;> simp [h0]

/-- The subscription of the C1 witness: no monitored item, 60 × 1000 ms of
current lifetime. -/
def c1Sub : Subscription :=
  { id := 7, monitoredItemCount := 0, lifeTimeCount := 60
    publishingInterval := 1000, maxKeepAliveCount := 10
    maxNotificationsPerPublish := 0, priority := 0
    retransmissionQueue := [], sessionKey := some 1
    transferRequestCount := 0, transferredToAltClientCount := 0
    transferredToSameClientCount := 0 }

/-- The calling session of the C1 witness, owning the subscription. -/
def c1Session : ServerSession :=
  { key := 1, creationDate := 0, status := .active, sessionTimeout := 10000
    userIdentity := 0, publishEngine := [c1Sub] }

/-- The engine state of the C1 witness. -/
def c1State : EngineState :=
  { sessions := [c1Session], orphanPublishEngine := none
    cumulatedSessionCount := 1, currentSessionCount := 1 }

/-- Witness for C1: at a concrete owned subscription without monitored
items and a request of 5000 hours, the revision behaves as proved. -/
theorem setSubscriptionDurable_revision_witness :
    getSubscriptionById c1Session.publishEngine 7 = some c1Sub
    ∧ ((0 < c1Sub.monitoredItemCount →
        setSubscriptionDurable c1State (some c1Session) 7 5000
          = (⟨.badInvalidState, none⟩, some c1Sub))
      ∧ (c1Sub.monitoredItemCount = 0 →
        (setSubscriptionDurable c1State (some c1Session) 7 5000).1
          = ⟨.good, some (if 5000 = 0 then 2400 else max 1 (min 5000 2400))⟩)
      ∧ (∀ r, (setSubscriptionDurable c1State (some c1Session) 7
            5000).1.revisedLifetimeInHours = some r → 1 ≤ r ∧ r ≤ 2400)) :=
  ⟨by decide,
    setSubscriptionDurable_revision c1State c1Session c1Sub 7 5000 (by decide)⟩

/-- If any registered session owns the subscription, the server-wide scan
finds one. -/
lemma findSubscription_isSome_of_session_owns {e : EngineState}
    {other : ServerSession} {sub : Subscription} {subscriptionId : Nat}
    (hmem : other ∈ e.sessions)
    (hown : getSubscriptionById other.publishEngine subscriptionId
      = some sub) :
    (findSubscription e subscriptionId).isSome := by
  have hne : sub ∈ e.sessions.filterMap
      (fun s => getSubscriptionById s.publishEngine subscriptionId) :=
    List.mem_filterMap.mpr ⟨other, hmem, hown⟩
  unfold findSubscription
  cases hcase : e.sessions.filterMap
      (fun s => getSubscriptionById s.publishEngine subscriptionId) with
  | nil => rw [hcase] at hne; exact absurd hne (List.not_mem_nil sub)
  | cons x xs => simp

/-- C9: for the three method bindings that resolve a subscription through
`_getSubscription` (GetMonitoredItems, SetSubscriptionDurable, ResendData),
a subscription owned by another session yields `Bad_UserAccessDenied`,
while a subscription id unknown to the whole server (orphanage included)
yields `Bad_SubscriptionIdInvalid`; the two codes are distinct. -/
theorem methodBindings_subscription_access (e : EngineState)
    (caller : ServerSession) (subscriptionId lifetimeInHours : Nat)
    (hnotmine : getSubscriptionById caller.publishEngine subscriptionId
      = none) :
    (∀ other ∈ e.sessions, ∀ sub,
      getSubscriptionById other.publishEngine subscriptionId = some sub →
      getMonitoredItemsStatus e (some caller) subscriptionId
          = .badUserAccessDenied
        ∧ setSubscriptionDurableStatus e (some caller) subscriptionId
            lifetimeInHours = .badUserAccessDenied
        ∧ resendDataStatus e (some caller) subscriptionId
            = .badUserAccessDenied)
    ∧ (findSubscription e subscriptionId = none →
      getMonitoredItemsStatus e (some caller) subscriptionId
          = .badSubscriptionIdInvalid
        ∧ setSubscriptionDurableStatus e (some caller) subscriptionId
            lifetimeInHours = .badSubscriptionIdInvalid
        ∧ resendDataStatus e (some caller) subscriptionId
            = .badSubscriptionIdInvalid)
    ∧ StatusCode.badUserAccessDenied ≠ StatusCode.badSubscriptionIdInvalid := by
  refine ⟨fun other hmem sub hown => ?_, fun hnone => ?_, by decide⟩
  · have hsome := findSubscription_isSome_of_session_owns hmem hown
    have hlookup : _getSubscription e (some caller) subscriptionId
        = .denied .badUserAccessDenied := by
      simp only [_getSubscription, hnotmine, hsome, if_true]
    refine ⟨?_, ?_, ?_⟩ <;>
      simp only [getMonitoredItemsStatus, setSubscriptionDurableStatus,
        setSubscriptionDurable, resendDataStatus, hlookup]
  · have hlookup : _getSubscription e (some caller) subscriptionId
        = .denied .badSubscriptionIdInvalid := by
      simp only [_getSubscription, hnotmine, hnone, Option.isSome_none,
        Bool.false_eq_true, if_false]
    refine ⟨?_, ?_, ?_⟩ <;>
      simp only [getMonitoredItemsStatus, setSubscriptionDurableStatus,
        setSubscriptionDurable, resendDataStatus, hlookup]

/-- The foreign subscription of the C9 witness, owned by session 2. -/
def c9Sub : Subscription :=
  { id := 11, monitoredItemCount := 1, lifeTimeCount := 60
    publishingInterval := 1000, maxKeepAliveCount := 10
    maxNotificationsPerPublish := 0, priority := 0
    retransmissionQueue := [], sessionKey := some 2
    transferRequestCount := 0, transferredToAltClientCount := 0
    transferredToSameClientCount := 0 }

/-- The caller of the C9 witness, owning no subscription. -/
def c9Caller : ServerSession :=
  { key := 1, creationDate := 0, status := .active, sessionTimeout := 10000
    userIdentity := 0, publishEngine := [] }

/-- The other session of the C9 witness, owning the subscription. -/
def c9Other : ServerSession :=
  { key := 2, creationDate := 0, status := .active, sessionTimeout := 10000
    userIdentity := 1, publishEngine := [c9Sub] }

/-- The engine state of the C9 witness. -/
def c9State : EngineState :=
  { sessions := [c9Caller, c9Other], orphanPublishEngine := none
    cumulatedSessionCount := 2, currentSessionCount := 2 }

/-- Witness for C9: with a concrete caller that owns nothing and another
session owning subscription 11, the three bindings answer as proved. -/
theorem methodBindings_subscription_access_witness :
    getSubscriptionById c9Caller.publishEngine 11 = none
    ∧ ((∀ other ∈ c9State.sessions, ∀ sub,
        getSubscriptionById other.publishEngine 11 = some sub →
        getMonitoredItemsStatus c9State (some c9Caller) 11
            = .badUserAccessDenied
          ∧ setSubscriptionDurableStatus c9State (some c9Caller) 11 0
              = .badUserAccessDenied
          ∧ resendDataStatus c9State (some c9Caller) 11
              = .badUserAccessDenied)
      ∧ (findSubscription c9State 11 = none →
        getMonitoredItemsStatus c9State (some c9Caller) 11
            = .badSubscriptionIdInvalid
          ∧ setSubscriptionDurableStatus c9State (some c9Caller) 11 0
              = .badSubscriptionIdInvalid
          ∧ resendDataStatus c9State (some c9Caller) 11
              = .badSubscriptionIdInvalid)
      ∧ StatusCode.badUserAccessDenied ≠ StatusCode.badSubscriptionIdInvalid) :=
  ⟨by decide, methodBindings_subscription_access c9State c9Caller 11 0
    (by decide)⟩

/-- C5: the timeout assigned to a new session is the requested one clamped
to [10 s, serverMaxSessionTimeout]; it is never below 10 s, including for
requests below 10 s (0 standing for the engine's falsy default path) and
for an absent request. -/
theorem assignedSessionTimeout_clamped (requested maxSessionTimeout : Nat)
    (hmax : 10000 ≤ maxSessionTimeout) :
    assignedSessionTimeout (some requested) maxSessionTimeout
      = max 10000 (min requested maxSessionTimeout)
    ∧ 10000 ≤ assignedSessionTimeout (some requested) maxSessionTimeout
    ∧ assignedSessionTimeout (some requested) maxSessionTimeout
      ≤ maxSessionTimeout
    ∧ assignedSessionTimeout none maxSessionTimeout = 10000 := by
  unfold assignedSessionTimeout engineDefaultSessionTimeout
    reviseSessionTimeout
  simp only [Option.getD]
  have hle := le_max_left 10000 (min requested maxSessionTimeout)
  have hne : ¬ (max 10000 (min requested maxSessionTimeout) = 0) := by omega
  rw [if_neg hne]
  refine ⟨rfl, le_max_left _ _, max_le hmax (min_le_right _ _), ?_⟩
  simp

/-- Witness for C5: a request of 3 seconds against a 1-hour server maximum
is revised to 10 seconds. -/
theorem assignedSessionTimeout_clamped_witness :
    10000 ≤ 3600000
    ∧ (assignedSessionTimeout (some 3000) 3600000
        = max 10000 (min 3000 3600000)
      ∧ 10000 ≤ assignedSessionTimeout (some 3000) 3600000
      ∧ assignedSessionTimeout (some 3000) 3600000 ≤ 3600000
      ∧ assignedSessionTimeout none 3600000 = 10000) :=
  ⟨by decide, assignedSessionTimeout_clamped 3000 3600000 (by decide)⟩

/-- The subscription of the C6 counterexample. -/
def c6Sub : Subscription :=
  { id := 9, monitoredItemCount := 1, lifeTimeCount := 60
    publishingInterval := 1000, maxKeepAliveCount := 10
    maxNotificationsPerPublish := 0, priority := 0
    retransmissionQueue := [3, 4], sessionKey := some 5
    transferRequestCount := 0, transferredToAltClientCount := 0
    transferredToSameClientCount := 0 }

/-- The session being closed in the C6 counterexample. -/
def c6Session : ServerSession :=
  { key := 5, creationDate := 50, status := .active, sessionTimeout := 10000
    userIdentity := 0, publishEngine := [c6Sub] }

/-- The engine state of the C6 counterexample. -/
def c6State : EngineState :=
  { sessions := [c6Session], orphanPublishEngine := none
    cumulatedSessionCount := 1, currentSessionCount := 1 }

/-- C6 counterexample: `closeSession` ends by disposing the session
(src/unnamed/part_000:3124), so at this concrete input the session's status
after the call is `disposed`, not `closed` as the claim states. -/
theorem closeSession_status_not_closed :
    (closeSession c6State 5 false).map (fun p => p.2.status)
      = some SessionStatus.disposed
    ∧ SessionStatus.disposed ≠ SessionStatus.closed := by decide

/-- C6 (amended): closing an existing session with
`deleteSubscriptions = false` transfers all its live subscriptions to the
orphanage (none deleted) and with `deleteSubscriptions = true` transfers
none; `currentSessionCount` decreases by exactly 1; and the session's
status after the call is `disposed` (it passes through `closed` before the
final dispose). -/
theorem closeSession_behaviour (e : EngineState) (session : ServerSession)
    (authenticationToken : Nat) (deleteSubscriptions : Bool)
    (hfind : e.sessions.find? (fun s => s.key == authenticationToken)
      = some session) :
    ∃ e2 closedSession,
      closeSession e authenticationToken deleteSubscriptions
        = some (e2, closedSession)
      ∧ closedSession.status = .disposed
      ∧ e2.currentSessionCount = e.currentSessionCount - 1
      ∧ (deleteSubscriptions = false →
          e2.orphanPublishEngine = some ((e.orphanPublishEngine.getD []) ++
            session.publishEngine.map Subscription.detach))
      ∧ (deleteSubscriptions = true →
          e2.orphanPublishEngine = e.orphanPublishEngine) := by
  cases deleteSubscriptions with
  | false =>
    unfold closeSession
    rw [hfind]
    refine ⟨_, _, rfl, ?_, ?_, ?_, ?_⟩ <;>
      simp [ServerSession.close, ServerSession.dispose]
  | true =>
    unfold closeSession
    rw [hfind]
    refine ⟨_, _, rfl, ?_, ?_, ?_, ?_⟩ <;>
      simp [ServerSession.close, ServerSession.dispose]

/-- Witness for C6 (amended): closing the concrete session with
`deleteSubscriptions = false` moves its only subscription to the orphanage,
drops `currentSessionCount` from 1 to 0 and leaves the session disposed. -/
theorem closeSession_behaviour_witness :
    c6State.sessions.find? (fun s => s.key == 5) = some c6Session
    ∧ (∃ e2 closedSession,
        closeSession c6State 5 false = some (e2, closedSession)
        ∧ closedSession.status = .disposed
        ∧ e2.currentSessionCount = c6State.currentSessionCount - 1
        ∧ (false = false →
            e2.orphanPublishEngine
              = some ((c6State.orphanPublishEngine.getD []) ++
                c6Session.publishEngine.map Subscription.detach))
        ∧ (false = true →
            e2.orphanPublishEngine = c6State.orphanPublishEngine)) :=
  ⟨by decide, closeSession_behaviour c6State c6Session 5 false (by decide)⟩

/-- C2: `transferSubscription` on an existing subscription with a live
owning session: a target session with a different user identity is denied
with `Bad_UserAccessDenied`; a target that already owns the subscription
gets `Bad_NothingToDo`; otherwise the transfer succeeds with `Good` and the
result's `availableSequenceNumbers` are exactly the sequence numbers of
the subscription's retransmission queue. -/
theorem transferSubscription_cases (e : EngineState)
    (session owner : ServerSession) (sub : Subscription)
    (subscriptionId : Nat) (sendInitialValues : Bool)
    (hid : subscriptionId ≠ 0)
    (hfind : findSubscription e subscriptionId = some sub)
    (hkey : sub.sessionKey = some owner.key)
    (howner : e.sessions.find? (fun s => s.key == owner.key) = some owner) :
    (owner.userIdentity ≠ session.userIdentity →
      (transferSubscription e session subscriptionId sendInitialValues).1
        = ⟨.badUserAccessDenied, []⟩)
    ∧ (owner = session →
      (transferSubscription e session subscriptionId sendInitialValues).1
        = ⟨.badNothingToDo, []⟩)
    ∧ (owner.userIdentity = session.userIdentity → owner.key ≠ session.key →
      (transferSubscription e session subscriptionId sendInitialValues).1
        = ⟨.good, sub.retransmissionQueue⟩) := by
  refine ⟨fun hdiff => ?_, fun hsame => ?_, fun hident hkeys => ?_⟩
  · simp [transferSubscription, hid, hfind, hkey, howner,
      sessionsCompatibleForTransfer, hdiff]
  · subst hsame
    simp [transferSubscription, hid, hfind, hkey, howner,
      sessionsCompatibleForTransfer]
  · simp [transferSubscription, hid, hfind, hkey, howner,
      sessionsCompatibleForTransfer, hident, hkeys]

/-- The subscription of the C2 witness, owned by session 1 and holding
sequence numbers 2 and 3 in its retransmission queue. -/
def c2Sub : Subscription :=
  { id := 4, monitoredItemCount := 0, lifeTimeCount := 60
    publishingInterval := 1000, maxKeepAliveCount := 10
    maxNotificationsPerPublish := 0, priority := 0
    retransmissionQueue := [2, 3], sessionKey := some 1
    transferRequestCount := 0, transferredToAltClientCount := 0
    transferredToSameClientCount := 0 }

/-- The owning session of the C2 witness. -/
def c2Owner : ServerSession :=
  { key := 1, creationDate := 0, status := .active, sessionTimeout := 10000
    userIdentity := 6, publishEngine := [c2Sub] }

/-- The target session of the C2 witness, sharing the owner's identity. -/
def c2Target : ServerSession :=
  { key := 2, creationDate := 0, status := .active, sessionTimeout := 10000
    userIdentity := 6, publishEngine := [] }

/-- The engine state of the C2 witness. -/
def c2State : EngineState :=
  { sessions := [c2Owner, c2Target], orphanPublishEngine := none
    cumulatedSessionCount := 2, currentSessionCount := 2 }

/-- Witness for C2: with subscription 4 owned by session 1 and a
same-identity target session 2, the three transfer outcomes are as
proved — in particular the successful transfer reports sequence numbers
[2, 3]. -/
theorem transferSubscription_cases_witness :
    findSubscription c2State 4 = some c2Sub
    ∧ ((c2Owner.userIdentity ≠ c2Target.userIdentity →
        (transferSubscription c2State c2Target 4 false).1
          = ⟨.badUserAccessDenied, []⟩)
      ∧ (c2Owner = c2Target →
        (transferSubscription c2State c2Target 4 false).1
          = ⟨.badNothingToDo, []⟩)
      ∧ (c2Owner.userIdentity = c2Target.userIdentity →
          c2Owner.key ≠ c2Target.key →
        (transferSubscription c2State c2Target 4 false).1
          = ⟨.good, c2Sub.retransmissionQueue⟩)) :=
  ⟨by decide, transferSubscription_cases c2State c2Target c2Owner c2Sub 4
    false (by decide) (by decide) (by decide) (by decide)⟩

/-- The ids handed out by a run of subscription creations are consecutive,
starting at the generator's current value. -/
lemma createSubscriptionRun_ids (reqs : List (Nat × CreateSubscriptionRequest))
    (g : SubscriptionIdGenerator) (e : EngineState) :
    (createSubscriptionRun g e reqs).map (fun sub => sub.id)
      = List.range' g.next_subscriptionId reqs.length := by
  induction reqs generalizing g e with
  | nil => rfl
  | cons hd tl ih =>
    cases hd with
    | mk sessionKey request =>
      simp [createSubscriptionRun, _createSubscriptionOnSession,
        _get_next_subscriptionId, ih, List.range']

/-- C7: whatever the random seed of the engine-scoped counter and whichever
sessions the subscriptions are created on, a run of
`_createSubscriptionOnSession` calls hands out the consecutive ids starting
at the seed, so the ids are strictly increasing across successive creations
and any two created subscriptions have distinct ids. -/
theorem subscriptionIds_strictly_increasing (g : SubscriptionIdGenerator)
    (e : EngineState) (reqs : List (Nat × CreateSubscriptionRequest)) :
    (createSubscriptionRun g e reqs).map (fun sub => sub.id)
      = List.range' g.next_subscriptionId reqs.length
    ∧ ((createSubscriptionRun g e reqs).map (fun sub => sub.id)).Pairwise
        (· < ·)
    ∧ ((createSubscriptionRun g e reqs).map (fun sub => sub.id)).Nodup := by
  have h := createSubscriptionRun_ids reqs g e
  refine ⟨h, ?_, ?_⟩
  · rw [h]
    exact List.pairwise_lt_range' _ _
  · rw [h]
    exact List.nodup_range' _ _

/-- C8: for every reserved character `c` of the RelativePath grammar,
parsing `"/1:x&" ++ c ++ "y"` yields a first element whose target name is
the QualifiedName with namespace index 1 and name `"x" ++ c ++ "y"` — the
escaped reserved character appears literally in the parsed name. -/
theorem makeRelativePath_escaped_reserved :
    ∀ c ∈ reservedChars,
      ((makeRelativePath ("/1:x&" ++ String.singleton c ++ "y")).bind
          List.head?).map (fun el => el.targetName)
        = some ⟨1, "x" ++ String.singleton c ++ "y"⟩ := by decide

/-- Witness for C8: the escaped slash, the first reserved character. -/
theorem makeRelativePath_escaped_reserved_witness :
    '/' ∈ reservedChars
    ∧ ((makeRelativePath ("/1:x&" ++ String.singleton '/' ++ "y")).bind
          List.head?).map (fun el => el.targetName)
        = some ⟨1, "x" ++ String.singleton '/' ++ "y"⟩ :=
  ⟨by decide, makeRelativePath_escaped_reserved '/' (by decide)⟩

end NodeOpcua
